import Mathlib

/-!
A shallow embedding of `src/imagine/imagine.py` (NVIDIA Imageinary) and
proofs of the specification's claims about it.

Conventions of the embedding:
* Pure Python helpers become Lean functions on `List`/`String`/`Nat`.
* The global numpy random stream is threaded explicitly: a generator is a
  pair of a seeding function (`numpy.random.seed`) and a draw step, kept
  abstract as parameters so every theorem holds for the real Mersenne
  Twister as a special case.
* Fallible code returns `Except String` (the raised exception's message).
* Filesystem effects are recorded as an explicit event trace; the
  environment (which optional backend modules imported, whether the source
  and destination directories exist, the directory listing, file contents)
  is a record of inputs.
* Machine integers do not overflow in any modelled computation except the
  uint8 pixel cast, written with an explicit `% 256`.
-/

namespace Imagine

/-- `SUPPORTED_IMAGE_FORMATS` (imagine.py lines 42-43): requested format
string, lower-case, to canonical extension. -/
def SUPPORTED_IMAGE_FORMATS : List (String × String) :=
  [("jpg", "jpg"), ("jpeg", "jpg"), ("bmp", "bmp"),
   ("bitmap", "bmp"), ("png", "png")]

/-- Python `str.lower`, character-wise case map (ASCII suffices for the
format strings the table holds). -/
def strLower (s : String) : String := String.mk (s.data.map Char.toLower)

/-- `SUPPORTED_IMAGE_FORMATS.get(image_format.lower(), 'png')`
(imagine.py line 541): table lookup on the lower-cased string, falling
back to `"png"` when the key is absent. -/
def canonicalExt (image_format : String) : String :=
  (SUPPORTED_IMAGE_FORMATS.lookup (strLower image_format)).getD "png"

/-- The PIL conversion mode chosen in `image_creation`. -/
inductive ColorMode
  | RGB
  | RGBA
deriving DecidableEq, Repr

/-- imagine.py lines 542-545: `convert('RGB')` exactly when the canonical
extension is `jpg`, `convert('RGBA')` otherwise. -/
def encodeColorMode (image_format : String) : ColorMode :=
  if canonicalExt image_format = "jpg" then ColorMode.RGB else ColorMode.RGBA

/-- `os.path.join` for a relative second component. -/
def os_path_join (a b : String) : String :=
  if a = "" ∨ a.endsWith "/" then a ++ b else a ++ "/" ++ b

/-- `os.path.abspath`: path canonicalisation is modelled as the identity
(paths are treated as opaque keys; no claim depends on canonicalisation). -/
def os_path_abspath (p : String) : String := p

/-- Draw `k` uniform samples in `[0,1)` from the pseudo-random stream,
threading the generator state; models `numpy.random.rand` consuming
`height*width*3` draws from the global stream (imagine.py line 540). -/
def drawSamples {S : Type} (next : S → S × Rat) : Nat → S → S × List Rat
  | 0, st => (st, [])
  | k + 1, st =>
    let p := next st
    let q := drawSamples next k p.1
    (q.1, p.2 :: q.2)

/-- `(v * 255).astype('uint8')` for `v ∈ [0,1)`: scale, truncate toward
zero, cast to an unsigned byte. -/
def toUint8 (v : Rat) : Nat := (v * 255).floor.toNat % 256

/-- `'%s%d.%s' % (combined_path, n, file_ext)` (imagine.py line 547):
the counter is rendered by `%d`, with no zero-padding. -/
def image_filename (combined_path : String) (n : Nat) (file_ext : String) :
    String :=
  combined_path ++ toString n ++ "." ++ file_ext

/-- What one `image_creation` task produces: the generator state it leaves
behind, the pixel bytes of the drawn `height×width×3` array, the PIL
conversion mode, and the file name written. -/
structure ImageOut (S : Type) where
  rng : S
  pixels : List Nat
  mode : ColorMode
  filename : String

/-- `image_creation` (imagine.py lines 507-547) with the global numpy
stream passed explicitly. `seedFn` is `numpy.random.seed`, `next` one draw
of the generator; `rngState` is the global stream state the worker process
happens to hold when the task starts. The body first executes
`numpy.random.seed(seed + n)`, discarding that incoming state, then draws
`height*width*3` samples, scales to bytes, picks the conversion mode and
the output file name. -/
def image_creation {S : Type} (seedFn : Nat → S) (next : S → S × Rat)
    (rngState : S) (combined_path : String) (width height seed : Nat)
    (image_format : String) (n : Nat) : ImageOut S :=
  let st := seedFn (seed + n)
  let drawn := drawSamples next (height * width * 3) st
  let file_ext := canonicalExt image_format
  { rng := drawn.1
    pixels := drawn.2.map toUint8
    mode := if file_ext = "jpg" then ColorMode.RGB else ColorMode.RGBA
    filename := image_filename combined_path n file_ext }

/-- `create_images` (imagine.py lines 146-215): the pool starmaps
`image_creation` over `(combined_path, width, height, seed, image_format, n)`
for `n in range(count)`. Modelled as the list of task outputs in index
order; `st` is the generator state each worker starts from (irrelevant by
the reseeding rule, see `image_creation_reseeds`). -/
def create_images {S : Type} (seedFn : Nat → S) (next : S → S × Rat)
    (st : S) (path name : String) (width height count : Nat)
    (image_format : String) (seed : Nat) : List (ImageOut S) :=
  (List.range count).map (fun n =>
    image_creation seedFn next st (os_path_join path name)
      width height seed image_format n)

/-- `num_of_records = ceil(len(image_files) / img_per_file)`
(imagine.py line 333), as exact natural-number ceiling division. -/
def num_records (length images_per_file : Nat) : Nat :=
  (length + images_per_file - 1) / images_per_file

/-- `record_slice` (imagine.py lines 225-278): one argument tuple per
record file; shard `num` receives the Python slice
`image_files[num*images_per_file : num*images_per_file+images_per_file]`. -/
def record_slice (source_path dest_path name : String)
    (image_files : List String) (images_per_file : Nat)
    (num_of_records : Nat) :
    List (String × String × String × List String × Nat) :=
  (List.range num_of_records).map (fun num =>
    (source_path, dest_path, name,
      (image_files.drop (num * images_per_file)).take images_per_file,
      num))

/-- The first maximal run of decimal digits in a character list:
`re.findall(r'\d+', name)[0]`, `none` when the name holds no digit
(where Python raises `IndexError`). -/
def firstDigitRun : List Char → Option (List Char)
  | [] => none
  | c :: rest =>
    if c.isDigit then some ((c :: rest).takeWhile Char.isDigit)
    else firstDigitRun rest

/-- Python `int` on a run of decimal digits. -/
def digitsToNat (cs : List Char) : Nat :=
  cs.foldl (fun acc c => 10 * acc + (c.toNat - 48)) 0

/-- `int(regex.findall(image_name)[0])` (imagine.py line 498), `none` when
the filename holds no digit. -/
def imageIndexOfName (name : String) : Option Nat :=
  (firstDigitRun name.data).map digitsToNat

/-- `pack(IRHeader(0, 0, image_index, 0), image)` (imagine.py lines
499-501): header fields flag, label, id, id2, then the raw image bytes. -/
structure PackedRecord where
  flag : Nat
  label : Nat
  id : Nat
  id2 : Nat
  image : List Nat
deriving DecidableEq

/-- The observable outcome of one `recordio_creation` task: the two file
names it opened, the `write_idx` calls it performed in order (key, packed
record), whether `recordio_ds.close()` ran, and the exception message if
the task raised. -/
structure RecResult where
  dataset_rec : String
  dataset_idx : String
  writes : List (Nat × PackedRecord)
  closed : Bool
  err : Option String
deriving DecidableEq

/-- `IndexError: list index out of range`: what `findall(...)[0]` raises on
a digitless filename. -/
def indexErrorMsg : String := "IndexError: list index out of range"

/-- The `for image_name in image_files` loop of `recordio_creation`
(imagine.py lines 496-504). Per iteration: extract the integer key from
the filename (raising when no digit is present), read the image bytes,
pack and `write_idx`. After a normal loop exit `recordio_ds.close()` runs;
an exception leaves the function without reaching the `close()` call. -/
def recordio_loop (read : String → List Nat) (source_path : String) :
    List String → List (Nat × PackedRecord) →
    List (Nat × PackedRecord) × Bool × Option String
  | [], acc => (acc, true, none)
  | image_name :: rest, acc =>
    match imageIndexOfName image_name with
    | none => (acc, false, some indexErrorMsg)
    | some image_index =>
      recordio_loop read source_path rest
        (acc ++ [(image_index,
          ⟨0, 0, image_index, 0,
            read (os_path_join source_path image_name)⟩)])

/-- `recordio_creation` (imagine.py lines 459-504): open
`{dest}/{name}{n}.rec` and `{dest}/{name}{n}.idx`, run the write loop,
close on normal completion. `read` models `open(image_path, 'rb').read()`. -/
def recordio_creation (read : String → List Nat)
    (source_path dest_path name : String) (image_files : List String)
    (n : Nat) : RecResult :=
  let combined_path := os_path_join dest_path name
  let r := recordio_loop read source_path image_files []
  { dataset_rec := combined_path ++ toString n ++ ".rec"
    dataset_idx := combined_path ++ toString n ++ ".idx"
    writes := r.1
    closed := r.2.1
    err := r.2.2 }

/-- One `recordio_creation` task as the pool sees it: its argument tuple
(as yielded by `record_slice`) and its outcome, a raised exception becoming
an `Except.error`. -/
def run_shard (read : String → List Nat)
    (args : String × String × String × List String × Nat) :
    Except String RecResult :=
  let r := recordio_creation read args.1 args.2.1 args.2.2.1
    args.2.2.2.1 args.2.2.2.2
  match r.err with
  | some e => Except.error e
  | none => Except.ok r

/-- `multiprocessing.pool.Pool.starmap`: runs every task and re-raises a
failing task's exception, aborting the batch (spec §4.5: "any task
exception propagates and aborts the remaining batch"). Sequentialised as
left-to-right execution with short-circuit on the first error. -/
def pool_starmap {α β : Type} (f : α → Except String β) :
    List α → Except String (List β)
  | [] => Except.ok []
  | a :: l =>
    match f a with
    | Except.error e => Except.error e
    | Except.ok b =>
      match pool_starmap f l with
      | Except.error e => Except.error e
      | Except.ok bs => Except.ok (b :: bs)

/-- Whether an `Except` finished without raising. -/
def exceptIsOk {ε α : Type} : Except ε α → Bool
  | Except.ok _ => true
  | Except.error _ => false

/-- One entry of `os.listdir(source_path)`: a subdirectory (skipped by the
record writers) or a regular file. -/
inductive DirEntry
  | dir (name : String)
  | file (name : String)
deriving DecidableEq

/-- The name of a non-directory entry, `none` for a subdirectory: the
`if os.path.isdir(...): continue` filter. -/
def entryName? : DirEntry → Option String
  | DirEntry.dir _ => none
  | DirEntry.file name => some name

/-- One serialized `Example` of the tfrecord loop (imagine.py lines
416-421): the raw file bytes and the constant label 0. -/
structure TFExample where
  encoded : List Nat
  label : Int
deriving DecidableEq

/-- The loop state of `create_tfrecords` (imagine.py lines 398-422):
rolling `image_count`, current `record` number, the open writer's file
name and its records so far, and the files already closed. -/
structure TFState where
  image_count : Nat
  record : Nat
  current_name : String
  current : List TFExample
  closed : List (String × List TFExample)
deriving DecidableEq

/-- One iteration of the `for image_name in os.listdir(source_path)` loop
(imagine.py lines 403-422): a subdirectory is skipped; otherwise
`image_count` is incremented, and if it now exceeds `img_per_file` the
counter resets to 1, the writer is closed and the next one opened at
`combined_path + str(record)`; then the entry is serialized and written to
the (possibly new) writer. -/
def tf_step (img_per_file : Nat) (combined_path : String)
    (read : String → List Nat) (source_path : String) (st : TFState) :
    DirEntry → TFState
  | DirEntry.dir _ => st
  | DirEntry.file image_name =>
    let c := st.image_count + 1
    let image := read (os_path_join source_path image_name)
    if img_per_file < c then
      { image_count := 1
        record := st.record + 1
        current_name := combined_path ++ toString (st.record + 1)
        current := [⟨image, 0⟩]
        closed := st.closed ++ [(st.current_name, st.current)] }
    else
      { st with image_count := c, current := st.current ++ [⟨image, 0⟩] }

/-- The state right after `writer = TFRecordWriter(combined_path +
str(record))` with `image_count = 0`, `record = 0` (imagine.py lines
398-402): the first output file is opened before the listing is
iterated. -/
def tf_init (combined_path : String) : TFState :=
  { image_count := 0
    record := 0
    current_name := combined_path ++ toString (0 : Nat)
    current := []
    closed := [] }

/-- The files `create_tfrecords` writes for a given listing: fold the loop
over the entries, then the final `writer.close()` (imagine.py line 424)
closes the still-open file. Each output is (file name, records). -/
def tfrecord_files (img_per_file : Nat) (combined_path : String)
    (read : String → List Nat) (source_path : String)
    (entries : List DirEntry) : List (String × List TFExample) :=
  let fin := entries.foldl (tf_step img_per_file combined_path read source_path)
    (tf_init combined_path)
  fin.closed ++ [(fin.current_name, fin.current)]

/-- The runtime environment of one invocation: which optional backend
imports succeeded (`IRHeader`, `TFRecordWriter` not `None`), whether the
source and destination directories exist, the source directory listing,
and the content of each file by path. -/
structure Env where
  mxnetAvailable : Bool
  tfAvailable : Bool
  sourceExists : Bool
  destExists : Bool
  listing : List DirEntry
  read : String → List Nat

/-- imagine.py lines 319-320. -/
def mxnetMissingMsg : String :=
  "MXNet not found! Please install MXNet dependency using \"pip install nvidia-imageinary['mxnet']\"."

/-- imagine.py lines 389-391. -/
def tfMissingMsg : String :=
  "TensorFlow not found! Please install TensorFlow dependency using \"pip install nvidia-imageinary['tfrecord']\"."

/-- imagine.py lines 142-143. -/
def missingDirMsg : String :=
  "Error: Please specify an input directory which contains valid images."

/-- `check_directory_exists` (imagine.py lines 125-143): raise
`RuntimeError` when the requested directory does not exist. -/
def check_directory_exists (present : Bool) : Except String Unit :=
  if present then Except.ok () else Except.error missingDirMsg

/-- Filesystem side effects the record pipelines can perform, recorded in
program order. -/
inductive Ev
  | checkedDir (path : String)
  | createdDir (path : String)
  | wroteFile (path : String)
deriving DecidableEq

/-- `try_create_directory` (imagine.py lines 108-122): `mkdir` only when
the directory does not already exist. -/
def try_create_directory (present : Bool) (directory : String) : List Ev :=
  if present then [] else [Ev.createdDir directory]

/-- `create_recordio` (imagine.py lines 281-349): backend check, source
directory check, destination directory creation, listing filter, shard
computation, pool dispatch of `recordio_creation` over `record_slice`.
Returns the event trace up to the point reached and the outcome. (On a
failing batch the partial writes of other workers are not modelled; no
claim examines the trace of a failing batch.) -/
def create_recordio_run (env : Env) (source_path dest_path name : String)
    (img_per_file : Nat) : List Ev × Except String (List RecResult) :=
  if env.mxnetAvailable = false then
    ([], Except.error mxnetMissingMsg)
  else
    match check_directory_exists env.sourceExists with
    | Except.error e =>
      ([Ev.checkedDir (os_path_abspath source_path)], Except.error e)
    | Except.ok _ =>
      let sp := os_path_abspath source_path
      let dp := os_path_abspath dest_path
      let dirEv := try_create_directory env.destExists dp
      let image_files := env.listing.filterMap entryName?
      let shards := record_slice sp dp name image_files img_per_file
        (num_records image_files.length img_per_file)
      match pool_starmap (run_shard env.read) shards with
      | Except.error e =>
        ([Ev.checkedDir sp] ++ dirEv, Except.error e)
      | Except.ok rs =>
        ([Ev.checkedDir sp] ++ dirEv
          ++ rs.map (fun r => Ev.wroteFile r.dataset_rec)
          ++ rs.map (fun r => Ev.wroteFile r.dataset_idx),
         Except.ok rs)

/-- `create_tfrecords` (imagine.py lines 352-427): backend check, source
directory check, destination directory creation, then the single-threaded
grouped write loop. -/
def create_tfrecords_run (env : Env) (source_path dest_path name : String)
    (img_per_file : Nat) :
    List Ev × Except String (List (String × List TFExample)) :=
  if env.tfAvailable = false then
    ([], Except.error tfMissingMsg)
  else
    match check_directory_exists env.sourceExists with
    | Except.error e => ([Ev.checkedDir source_path], Except.error e)
    | Except.ok _ =>
      let dirEv := try_create_directory env.destExists dest_path
      let combined_path := os_path_join dest_path name
      let files := tfrecord_files img_per_file combined_path env.read
        source_path env.listing
      ([Ev.checkedDir source_path] ++ dirEv
        ++ files.map (fun f => Ev.wroteFile f.1),
       Except.ok files)

/-- The loop invariant of `create_tfrecords` after `p` non-directory
entries have been processed: the open writer holds `image_count` records,
the counter never exceeds `img_per_file`, every closed file holds exactly
`img_per_file` records, the totals add up, and once anything was processed
the open writer is nonempty. -/
def TFInv (img_per_file p : Nat) (st : TFState) : Prop :=
  st.current.length = st.image_count
  ∧ st.image_count ≤ img_per_file
  ∧ (∀ f ∈ st.closed, f.2.length = img_per_file)
  ∧ st.closed.length * img_per_file + st.image_count = p
  ∧ (1 ≤ p → 1 ≤ st.image_count)

/-! ### Helper lemmas -/

theorem length_le_num_records_mul (L S : Nat) (hS : 0 < S) :
    L ≤ num_records L S * S := by
  unfold num_records
  have h := Nat.div_add_mod (L + S - 1) S
  have h2 := Nat.mod_lt (L + S - 1) hS
  have h3 : S * ((L + S - 1) / S) = (L + S - 1) / S * S := Nat.mul_comm _ _
  omega

theorem chunks_flatten {α : Type} (S : Nat) :
    ∀ (k : Nat) (l : List α), l.length ≤ k * S →
      ((List.range k).map (fun i => (l.drop (i * S)).take S)).flatten = l := by
  intro k
  induction k with
  | zero =>
    intro l h
    simp only [Nat.zero_mul, Nat.le_zero] at h
    simp [List.length_eq_zero.mp h]
  | succ k ih =>
    intro l h
    rw [List.range_succ_eq_map]
    simp only [List.map_cons, List.map_map, List.flatten_cons, Nat.zero_mul,
      List.drop_zero]
    have hfun : ((fun i => (l.drop (i * S)).take S) ∘ Nat.succ)
        = fun i => (((l.drop S).drop (i * S)).take S) := by
      funext i
      simp only [Function.comp]
      rw [Nat.succ_mul, Nat.add_comm (i * S) S, ← List.drop_drop]
    rw [hfun]
    have hlen : (l.drop S).length ≤ k * S := by
      rw [List.length_drop]
      have : l.length ≤ k * S + S := by
        have h2 : (k + 1) * S = k * S + S := Nat.succ_mul k S
        omega
      omega
    rw [ih (l.drop S) hlen]
    exact List.take_append_drop S l

theorem shard_full_length {α : Type} (l : List α) (S i : Nat) (hS : 0 < S)
    (h : i + 1 < num_records l.length S) :
    ((l.drop (i * S)).take S).length = S := by
  have h1 : (l.length + S - 1) / S * S ≤ l.length + S - 1 :=
    Nat.div_mul_le_self _ _
  have h2 : (i + 2) * S ≤ (l.length + S - 1) / S * S :=
    Nat.mul_le_mul_right _ (by unfold num_records at h; omega)
  have h3 : (i + 2) * S = (i + 1) * S + S := by
    rw [Nat.add_mul, Nat.add_mul]; ring
  have h5 : (i + 1) * S = i * S + S := by rw [Nat.add_mul]; ring
  rw [List.length_take, List.length_drop]
  omega

theorem recordio_loop_all_keys (read : String → List Nat) (sp : String) :
    ∀ (files : List String) (acc : List (Nat × PackedRecord)),
      (∀ f ∈ files, (imageIndexOfName f).isSome = true) →
      (recordio_loop read sp files acc).2.2 = none
      ∧ (recordio_loop read sp files acc).2.1 = true
      ∧ (recordio_loop read sp files acc).1.map Prod.fst
          = acc.map Prod.fst ++ files.filterMap imageIndexOfName := by
  intro files
  induction files with
  | nil => intro acc _h; simp [recordio_loop]
  | cons f rest ih =>
    intro acc h
    have hf : (imageIndexOfName f).isSome = true :=
      h f (List.mem_cons_self f rest)
    obtain ⟨i, hi⟩ := Option.isSome_iff_exists.mp hf
    have hrest : ∀ g ∈ rest, (imageIndexOfName g).isSome = true :=
      fun g hg => h g (List.mem_cons_of_mem f hg)
    obtain ⟨h1, h2, h3⟩ :=
      ih (acc ++ [(i, ⟨0, 0, i, 0, read (os_path_join sp f)⟩)]) hrest
    refine ⟨?_, ?_, ?_⟩ <;>
      simp [recordio_loop, hi, h1, h2, h3, List.filterMap_cons]

theorem recordio_loop_digitless (read : String → List Nat) (sp : String) :
    ∀ (files : List String) (acc : List (Nat × PackedRecord)) (f : String),
      f ∈ files → imageIndexOfName f = none →
      (recordio_loop read sp files acc).2.2.isSome = true := by
  intro files
  induction files with
  | nil => intro acc f hf; simp at hf
  | cons g rest ih =>
    intro acc f hf hnone
    rcases List.mem_cons.mp hf with h | h
    · subst h
      simp [recordio_loop, hnone]
    · cases hg : imageIndexOfName g with
      | none => simp [recordio_loop, hg]
      | some i =>
        simp only [recordio_loop, hg]
        exact ih _ f h hnone

theorem recordio_loop_closed_iff_none (read : String → List Nat)
    (sp : String) :
    ∀ (files : List String) (acc : List (Nat × PackedRecord)),
      ((recordio_loop read sp files acc).2.1 = true
        ↔ (recordio_loop read sp files acc).2.2 = none) := by
  intro files
  induction files with
  | nil => intro acc; simp [recordio_loop]
  | cons g rest ih =>
    intro acc
    cases hg : imageIndexOfName g with
    | none => simp [recordio_loop, hg]
    | some i =>
      simp only [recordio_loop, hg]
      exact ih _

theorem pool_starmap_mem_fail {α β : Type} (f : α → Except String β) :
    ∀ (l : List α) (x : α), x ∈ l → exceptIsOk (f x) = false →
      exceptIsOk (pool_starmap f l) = false := by
  intro l
  induction l with
  | nil => intro x hx; simp at hx
  | cons a rest ih =>
    intro x hx hfail
    rcases List.mem_cons.mp hx with h | h
    · subst h
      cases hfx : f x with
      | error e => simp [pool_starmap, hfx, exceptIsOk]
      | ok b => rw [hfx] at hfail; simp [exceptIsOk] at hfail
    · cases hfa : f a with
      | error e => simp [pool_starmap, hfa, exceptIsOk]
      | ok b =>
        have hrest := ih x h hfail
        simp only [pool_starmap, hfa]
        cases hp : pool_starmap f rest with
        | error e => simp [exceptIsOk]
        | ok bs => rw [hp] at hrest; simp [exceptIsOk] at hrest

theorem tf_step_file_inv (Spf : Nat) (hS : 0 < Spf) (cp : String)
    (read : String → List Nat) (sp : String) (st : TFState) (nm : String)
    (p : Nat) (h : TFInv Spf p st) :
    TFInv Spf (p + 1) (tf_step Spf cp read sp st (DirEntry.file nm)) := by
  obtain ⟨h1, h2, h3, h4, _h5⟩ := h
  have hstep : tf_step Spf cp read sp st (DirEntry.file nm)
      = if Spf < st.image_count + 1 then
          { image_count := 1
            record := st.record + 1
            current_name := cp ++ toString (st.record + 1)
            current := [⟨read (os_path_join sp nm), 0⟩]
            closed := st.closed ++ [(st.current_name, st.current)] }
        else
          { st with
            image_count := st.image_count + 1
            current := st.current ++ [⟨read (os_path_join sp nm), 0⟩] } := rfl
  rw [hstep]
  by_cases hc : Spf < st.image_count + 1
  · rw [if_pos hc]
    have hcount : st.image_count = Spf := by omega
    refine ⟨rfl, hS, ?_, ?_, fun _ => Nat.le_refl 1⟩
    · intro f hf
      rcases List.mem_append.mp hf with hin | hin
      · exact h3 f hin
      · rw [List.mem_singleton.mp hin]
        rw [h1, hcount]
    · simp only [List.length_append, List.length_singleton]
      rw [Nat.add_mul, Nat.one_mul]
      omega
  · rw [if_neg hc]
    refine ⟨?_, ?_, h3, ?_, ?_⟩
    · show (st.current
          ++ [({ encoded := read (os_path_join sp nm), label := 0 } : TFExample)]).length
        = st.image_count + 1
      rw [List.length_append, List.length_singleton, h1]
    · show st.image_count + 1 ≤ Spf
      omega
    · show st.closed.length * Spf + (st.image_count + 1) = p + 1
      omega
    · intro _hp
      show 1 ≤ st.image_count + 1
      omega

theorem tf_foldl_inv (Spf : Nat) (hS : 0 < Spf) (cp : String)
    (read : String → List Nat) (sp : String) :
    ∀ (entries : List DirEntry) (st : TFState) (p : Nat),
      TFInv Spf p st →
      TFInv Spf (p + (entries.filterMap entryName?).length)
        (entries.foldl (tf_step Spf cp read sp) st) := by
  intro entries
  induction entries with
  | nil => intro st p h; simpa using h
  | cons e rest ih =>
    intro st p h
    cases e with
    | dir d =>
      have hfm : (List.filterMap entryName? (DirEntry.dir d :: rest))
          = rest.filterMap entryName? := by
        simp [List.filterMap_cons, entryName?]
      rw [hfm, List.foldl_cons]
      exact ih st p h
    | file nm =>
      have hfm : (List.filterMap entryName? (DirEntry.file nm :: rest))
          = nm :: rest.filterMap entryName? := by
        simp [List.filterMap_cons, entryName?]
      rw [hfm, List.foldl_cons, List.length_cons]
      have hnext := tf_step_file_inv Spf hS cp read sp st nm p h
      have hrec := ih (tf_step Spf cp read sp st (DirEntry.file nm)) (p + 1) hnext
      have harith : p + 1 + (rest.filterMap entryName?).length
          = p + ((rest.filterMap entryName?).length + 1) := by omega
      rw [harith] at hrec
      exact hrec

theorem tf_foldl_dirs (Spf : Nat) (cp : String) (read : String → List Nat)
    (sp : String) :
    ∀ (entries : List DirEntry), entries.filterMap entryName? = [] →
      ∀ st : TFState, entries.foldl (tf_step Spf cp read sp) st = st := by
  intro entries
  induction entries with
  | nil => intro _h st; rfl
  | cons e rest ih =>
    cases e with
    | dir d =>
      intro h st
      have hfm : (List.filterMap entryName? (DirEntry.dir d :: rest))
          = rest.filterMap entryName? := by
        simp [List.filterMap_cons, entryName?]
      rw [hfm] at h
      rw [List.foldl_cons]
      exact ih h st
    | file nm =>
      intro h
      simp [List.filterMap_cons, entryName?] at h

/-! ### Claim theorems -/

/-- C1: for a fixed tuple (seed, index, width, height, image_format) the
pixel array `image_creation` draws — and its conversion mode and output
file name — are identical no matter what pseudo-random stream state the
executing worker holds when the task starts: `numpy.random.seed(seed + n)`
reseeds the stream before any value is drawn, so image `n` does not depend
on which worker runs it or on how many other images were generated first.
Stated for every deterministic generator (`seedFn`, `next`), of which
numpy's Mersenne Twister is an instance. -/
theorem image_creation_reseeds {S : Type} (seedFn : Nat → S)
    (next : S → S × Rat) (s₁ s₂ : S) (combined_path : String)
    (width height seed : Nat) (image_format : String) (n : Nat) :
    (image_creation seedFn next s₁ combined_path width height seed
        image_format n).pixels
      = (image_creation seedFn next s₂ combined_path width height seed
          image_format n).pixels
    ∧ (image_creation seedFn next s₁ combined_path width height seed
        image_format n).mode
      = (image_creation seedFn next s₂ combined_path width height seed
          image_format n).mode
    ∧ (image_creation seedFn next s₁ combined_path width height seed
        image_format n).filename
      = (image_creation seedFn next s₂ combined_path width height seed
          image_format n).filename :=
  ⟨rfl, rfl, rfl⟩

/-- C2: for a file list of length `L` and shard size `S > 0`,
`record_slice` driven with `num_records L S = ceil(L/S)` yields exactly
that many shards; shard `i` carries the contiguous slice
`file_list[i*S : (i+1)*S]` (clamped at `L`); the shards concatenate back
to the original list; and every shard but possibly the last has length
exactly `S`. -/
theorem record_slice_partition (sp dp nm : String) (files : List String)
    (S : Nat) (hS : 0 < S) :
    (record_slice sp dp nm files S (num_records files.length S)).length
        = num_records files.length S
    ∧ (∀ i, i < num_records files.length S →
        (record_slice sp dp nm files S (num_records files.length S))[i]?
          = some (sp, dp, nm, (files.drop (i * S)).take S, i))
    ∧ ((record_slice sp dp nm files S (num_records files.length S)).map
          (fun t => t.2.2.2.1)).flatten = files
    ∧ (∀ i, i + 1 < num_records files.length S →
        ((files.drop (i * S)).take S).length = S) := by
  refine ⟨?_, ?_, ?_, ?_⟩
  · simp [record_slice]
  · intro i hi
    simp [record_slice, List.getElem?_map, List.getElem?_range, hi]
  · have hcov : files.length ≤ num_records files.length S * S :=
      length_le_num_records_mul files.length S hS
    simp only [record_slice, List.map_map, Function.comp]
    exact chunks_flatten S (num_records files.length S) files hcov
  · intro i hi
    exact shard_full_length files S i hS hi

/-- Witness for C2 at a concrete list of three files and shard size 2. -/
theorem record_slice_partition_witness :
    ((record_slice "s" "d" "r_" ["a0", "a1", "a2"] 2
        (num_records (["a0", "a1", "a2"] : List String).length 2)).map
      (fun t => t.2.2.2.1)).flatten = ["a0", "a1", "a2"] :=
  (record_slice_partition "s" "d" "r_" ["a0", "a1", "a2"] 2 (by decide)).2.2.1

/-- C3 counterexample: the claim quantifies over every `k ≥ 0`, but for
`k = 0` (a source directory with `0 * 1` image files) the writer still
produces one output file — the unconditionally opened first writer — not
zero. -/
theorem create_tfrecords_zero_cex :
    (([] : List DirEntry).filterMap entryName?).length = 0 * 1
    ∧ ¬ (tfrecord_files 1 "r_" (fun _ => []) "s"
          ([] : List DirEntry)).length = 0 := by
  constructor
  · rfl
  · intro h
    simp [tfrecord_files] at h

/-- C3 (amended): for every `k ≥ 1` and group size `S > 0`, a source
listing with exactly `k*S` non-directory entries yields exactly `k` output
files of exactly `S` records each; and the rolling counter resets strictly
after exceeding `S` — a step taken with the counter already at `S` rolls
to the next file, while a step that only reaches `S` keeps writing the
current file. (The original claim's `k ≥ 0` fails at `k = 0`, see the
counterexample: an empty directory still yields one output file.) -/
theorem create_tfrecords_group_count (Spf k : Nat) (cp : String)
    (read : String → List Nat) (sp : String) (entries : List DirEntry)
    (hS : 0 < Spf) (hk : 1 ≤ k)
    (hlen : (entries.filterMap entryName?).length = k * Spf) :
    (tfrecord_files Spf cp read sp entries).length = k
    ∧ (∀ f ∈ tfrecord_files Spf cp read sp entries, f.2.length = Spf)
    ∧ (∀ (st : TFState) (nm : String), st.image_count = Spf →
        (tf_step Spf cp read sp st (DirEntry.file nm)).record
          = st.record + 1)
    ∧ (∀ (st : TFState) (nm : String), st.image_count + 1 ≤ Spf →
        (tf_step Spf cp read sp st (DirEntry.file nm)).record
          = st.record) := by
  have hinit : TFInv Spf 0 (tf_init cp) :=
    ⟨rfl, Nat.zero_le _, by simp [tf_init], by simp [tf_init], by omega⟩
  have hinv := tf_foldl_inv Spf hS cp read sp entries (tf_init cp) 0 hinit
  rw [Nat.zero_add, hlen] at hinv
  obtain ⟨h1, h2, h3, h4, h5⟩ := hinv
  have hpos : 1 ≤ (entries.foldl (tf_step Spf cp read sp)
      (tf_init cp)).image_count := by
    refine h5 ?_
    calc 1 = 1 * 1 := by omega
    _ ≤ k * Spf := Nat.mul_le_mul hk hS
  have hq : (entries.foldl (tf_step Spf cp read sp)
        (tf_init cp)).closed.length + 1 = k
      ∧ (entries.foldl (tf_step Spf cp read sp)
          (tf_init cp)).image_count = Spf := by
    set q := (entries.foldl (tf_step Spf cp read sp)
      (tf_init cp)).closed.length with hqdef
    set c := (entries.foldl (tf_step Spf cp read sp)
      (tf_init cp)).image_count with hcdef
    have hlt : q * Spf < k * Spf := by omega
    have hqk : q < k := Nat.lt_of_mul_lt_mul_right hlt
    have hle : k * Spf ≤ (q + 1) * Spf := by
      rw [Nat.add_mul, Nat.one_mul]; omega
    have hk2 : k ≤ q + 1 := Nat.le_of_mul_le_mul_right hle hS
    have heq : q + 1 = k := by omega
    refine ⟨heq, ?_⟩
    have hx : (q + 1) * Spf = q * Spf + Spf := by
      rw [Nat.add_mul, Nat.one_mul]
    rw [heq] at hx
    omega
  refine ⟨?_, ?_, ?_, ?_⟩
  · show ((entries.foldl (tf_step Spf cp read sp) (tf_init cp)).closed
        ++ [_]).length = k
    rw [List.length_append, List.length_singleton]
    exact hq.1
  · intro f hf
    rcases List.mem_append.mp hf with hin | hin
    · exact h3 f hin
    · rw [List.mem_singleton.mp hin]
      show (entries.foldl (tf_step Spf cp read sp)
        (tf_init cp)).current.length = Spf
      rw [h1]
      exact hq.2
  · intro st nm hcount
    have hstep : tf_step Spf cp read sp st (DirEntry.file nm)
        = if Spf < st.image_count + 1 then
            { image_count := 1
              record := st.record + 1
              current_name := cp ++ toString (st.record + 1)
              current := [⟨read (os_path_join sp nm), 0⟩]
              closed := st.closed ++ [(st.current_name, st.current)] }
          else
            { st with
              image_count := st.image_count + 1
              current := st.current ++ [⟨read (os_path_join sp nm), 0⟩] } :=
      rfl
    rw [hstep, if_pos (by omega)]
  · intro st nm hcount
    have hstep : tf_step Spf cp read sp st (DirEntry.file nm)
        = if Spf < st.image_count + 1 then
            { image_count := 1
              record := st.record + 1
              current_name := cp ++ toString (st.record + 1)
              current := [⟨read (os_path_join sp nm), 0⟩]
              closed := st.closed ++ [(st.current_name, st.current)] }
          else
            { st with
              image_count := st.image_count + 1
              current := st.current ++ [⟨read (os_path_join sp nm), 0⟩] } :=
      rfl
    rw [hstep, if_neg (by omega)]

/-- Witness for C3 (amended) with four files, group size 2: two output
files. -/
theorem create_tfrecords_group_count_witness :
    (tfrecord_files 2 "r_" (fun _ => []) "s"
      [DirEntry.file "a1", DirEntry.file "a2",
       DirEntry.file "a3", DirEntry.file "a4"]).length = 2 :=
  (create_tfrecords_group_count 2 2 "r_" (fun _ => []) "s"
    [DirEntry.file "a1", DirEntry.file "a2",
     DirEntry.file "a3", DirEntry.file "a4"]
    (by decide) (by decide) (by decide)).1

/-- C4: within a shard, each record's integer key is the decimal value of
the first maximal digit run of its filename (`re.findall(r'\d+', name)[0]`
parsed by `int`); when every filename has a digit the task succeeds and
writes those keys in list order, and when some filename has none the task
raises (an unrecoverable `IndexError`), and a pool batch containing that
shard fails as a whole — no retry path exists in the model, mirroring the
code. -/
theorem recordio_key_extraction (read : String → List Nat)
    (sp dp nm : String) (files : List String) (n : Nat) :
    ((∀ f ∈ files, (imageIndexOfName f).isSome = true) →
      (recordio_creation read sp dp nm files n).err = none
      ∧ (recordio_creation read sp dp nm files n).writes.map Prod.fst
          = files.filterMap imageIndexOfName)
    ∧ (∀ f ∈ files, imageIndexOfName f = none →
      (recordio_creation read sp dp nm files n).err.isSome = true
      ∧ ∀ pre post : List (String × String × String × List String × Nat),
          exceptIsOk (pool_starmap (run_shard read)
            (pre ++ (sp, dp, nm, files, n) :: post)) = false) := by
  constructor
  · intro h
    obtain ⟨h1, _h2, h3⟩ := recordio_loop_all_keys read sp files [] h
    exact ⟨h1, by simpa using h3⟩
  · intro f hf hnone
    have herr : (recordio_creation read sp dp nm files n).err.isSome
        = true := recordio_loop_digitless read sp files [] f hf hnone
    refine ⟨herr, ?_⟩
    intro pre post
    refine pool_starmap_mem_fail (run_shard read) _ (sp, dp, nm, files, n)
      (by simp) ?_
    obtain ⟨e, he⟩ := Option.isSome_iff_exists.mp herr
    show exceptIsOk (match (recordio_creation read sp dp nm files n).err with
      | some e => Except.error e
      | none => Except.ok (recordio_creation read sp dp nm files n)) = false
    rw [he]
    rfl

/-- Witness for C4: the digitless filename aborts the whole one-shard
batch. -/
theorem recordio_key_extraction_witness :
    exceptIsOk (pool_starmap (run_shard (fun _ => []))
      ([] ++ ("s", "d", "r_", ["noDigits"], 0) :: [])) = false :=
  ((recordio_key_extraction (fun _ => []) "s" "d" "r_" ["noDigits"] 0).2
    "noDigits" (by simp) (by decide)).2 [] []

/-- C5: `image_creation` maps the requested format string through the
supported-formats table after lower-casing, so the mapping is
case-insensitive; an unrecognised string falls back to `"png"`; and the
image is converted to RGB exactly when the canonical extension is `jpg`,
to RGBA for every other canonical format (including the png fallback). -/
theorem image_format_mapping (fmt : String) :
    (∀ ext, SUPPORTED_IMAGE_FORMATS.lookup (strLower fmt) = some ext →
      canonicalExt fmt = ext)
    ∧ (SUPPORTED_IMAGE_FORMATS.lookup (strLower fmt) = none →
      canonicalExt fmt = "png")
    ∧ (∀ t, strLower fmt = strLower t → canonicalExt fmt = canonicalExt t)
    ∧ (encodeColorMode fmt = ColorMode.RGB ↔ canonicalExt fmt = "jpg")
    ∧ (encodeColorMode fmt = ColorMode.RGBA ↔ ¬ canonicalExt fmt = "jpg") := by
  refine ⟨?_, ?_, ?_, ?_, ?_⟩
  · intro ext h; simp [canonicalExt, h]
  · intro h; simp [canonicalExt, h]
  · intro t h; simp [canonicalExt, h]
  · unfold encodeColorMode
    by_cases h : canonicalExt fmt = "jpg" <;> simp [h]
  · unfold encodeColorMode
    by_cases h : canonicalExt fmt = "jpg" <;> simp [h]

/-- Witness for C5: an unrecognised format falls back to png, and the
mapping is insensitive to the case of `"JPEG"`. -/
theorem image_format_mapping_witness :
    canonicalExt "TIFF" = "png" ∧ canonicalExt "JPEG" = canonicalExt "jpeg" :=
  ⟨(image_format_mapping "TIFF").2.1 (by decide),
   (image_format_mapping "JPEG").2.2.1 "jpeg" (by decide)⟩

/-- C6: `create_images` with `count = N > 0` produces exactly the `N`
files `{joined path+name}{i}.{canonical extension}` for `i = 0..N-1` — the
written list has length `N` and its `i`-th entry is that name (rendered by
`%d`, so without zero-padding), and nothing else is written. -/
theorem create_images_filenames {S : Type} (seedFn : Nat → S)
    (next : S → S × Rat) (st : S) (path name : String)
    (width height count : Nat) (image_format : String) (seed : Nat)
    (h : 0 < count) :
    ((create_images seedFn next st path name width height count
        image_format seed).map ImageOut.filename).length = count
    ∧ ∀ i, i < count →
      ((create_images seedFn next st path name width height count
          image_format seed).map ImageOut.filename)[i]?
        = some (image_filename (os_path_join path name) i
            (canonicalExt image_format)) := by
  constructor
  · simp [create_images]
  · intro i hi
    simp [create_images, List.getElem?_map, List.getElem?_range, hi,
      image_creation]

/-- Witness for C6 at `count = 2`: the second file is `{path/name}1.png`. -/
theorem create_images_filenames_witness :
    ((create_images (fun s => s) (fun s => (s, 0)) 0 "out" "img_" 4 3 2
        "png" 0).map ImageOut.filename)[1]?
      = some (image_filename (os_path_join "out" "img_") 1
          (canonicalExt "png")) :=
  (create_images_filenames (fun s => s) (fun s => (s, 0)) 0 "out" "img_"
    4 3 2 "png" 0 (by decide)).2 1 (by decide)

/-- C7 counterexample: on the error exit path the files are not closed —
a shard whose single filename holds no digit raises, and the
`recordio_ds.close()` call (which only follows the loop, with no
try/finally) never runs. -/
theorem recordio_close_skipped_cex :
    (recordio_creation (fun _ => []) "s" "d" "r_" ["noDigitsHere"] 0).closed
        = false
    ∧ (recordio_creation (fun _ => []) "s" "d" "r_"
        ["noDigitsHere"] 0).err.isSome = true := by
  decide

/-- C7 (amended): `recordio_creation` closes the `.rec`/`.idx` pair
exactly on normal completion of the shard: `closed` holds iff no error was
raised. When key extraction raises partway through, the explicit
`close()` is skipped (the original claim's "on every exit path" fails, see
the counterexample; any eventual release then comes from the runtime's
finalizer, not from this function). -/
theorem recordio_close_iff_no_error (read : String → List Nat)
    (sp dp nm : String) (files : List String) (n : Nat) :
    ((recordio_creation read sp dp nm files n).closed = true
      ↔ (recordio_creation read sp dp nm files n).err = none) :=
  recordio_loop_closed_iff_none read sp files []

/-- C8: when the optional backend for the chosen record format was not
importable (`IRHeader` / `TFRecordWriter` is `None`), the record-creation
entry point raises its explicit, human-readable `ImportError` naming the
missing dependency immediately: no directory is checked or created and no
output is written (the event trace is empty). -/
theorem missing_backend_fatal (env : Env) (sp dp nm : String) (ipf : Nat)
    (hmx : env.mxnetAvailable = false) (htf : env.tfAvailable = false) :
    create_recordio_run env sp dp nm ipf
        = ([], Except.error mxnetMissingMsg)
    ∧ create_tfrecords_run env sp dp nm ipf
        = ([], Except.error tfMissingMsg) := by
  constructor
  · unfold create_recordio_run
    rw [hmx]
    rfl
  · unfold create_tfrecords_run
    rw [htf]
    rfl

/-- Witness for C8 with both backends absent. -/
theorem missing_backend_fatal_witness :
    create_recordio_run ⟨false, false, true, true, [], fun _ => []⟩
        "s" "d" "r_" 5
      = ([], Except.error mxnetMissingMsg) :=
  (missing_backend_fatal ⟨false, false, true, true, [], fun _ => []⟩
    "s" "d" "r_" 5 rfl rfl).1

/-- C9: with the backend present but the source path nonexistent, both
record-creation entry points stop at `check_directory_exists` with the
configuration `RuntimeError`: the trace shows only the existence check —
no worker ran, the destination directory was not created, and no output
file was written. -/
theorem missing_source_dir_fatal (env : Env) (sp dp nm : String)
    (ipf : Nat) (hmx : env.mxnetAvailable = true)
    (htf : env.tfAvailable = true) (hsrc : env.sourceExists = false) :
    create_recordio_run env sp dp nm ipf
        = ([Ev.checkedDir (os_path_abspath sp)], Except.error missingDirMsg)
    ∧ create_tfrecords_run env sp dp nm ipf
        = ([Ev.checkedDir sp], Except.error missingDirMsg) := by
  constructor
  · unfold create_recordio_run
    rw [hmx, hsrc]
    rfl
  · unfold create_tfrecords_run
    rw [htf, hsrc]
    rfl

/-- Witness for C9 against a concrete environment with no source
directory. -/
theorem missing_source_dir_fatal_witness :
    create_recordio_run ⟨true, true, false, false, [], fun _ => []⟩
        "missing" "d" "r_" 5
      = ([Ev.checkedDir (os_path_abspath "missing")],
         Except.error missingDirMsg) :=
  (missing_source_dir_fatal ⟨true, true, false, false, [], fun _ => []⟩
    "missing" "d" "r_" 5 rfl rfl rfl).1

/-- C10: `create_tfrecords` opens its first output file
`{join dest name}0` before iterating the listing, so a source directory
that exists but holds no non-directory entry still completes and yields
exactly that one output file with zero records. -/
theorem create_tfrecords_empty_source (env : Env) (sp dp nm : String)
    (Spf : Nat) (htf : env.tfAvailable = true)
    (hsrc : env.sourceExists = true)
    (h : env.listing.filterMap entryName? = []) :
    (create_tfrecords_run env sp dp nm Spf).2
      = Except.ok [(os_path_join dp nm ++ "0", [])] := by
  unfold create_tfrecords_run
  rw [htf]
  have hchk : check_directory_exists env.sourceExists = Except.ok () := by
    rw [hsrc]; rfl
  rw [hchk]
  show Except.ok (tfrecord_files Spf (os_path_join dp nm) env.read sp
      env.listing)
    = Except.ok [(os_path_join dp nm ++ "0", [])]
  unfold tfrecord_files
  rw [tf_foldl_dirs Spf (os_path_join dp nm) env.read sp env.listing h
    (tf_init (os_path_join dp nm))]
  rfl

/-- Witness for C10: a listing holding only a subdirectory yields the
single empty output file. -/
theorem create_tfrecords_empty_source_witness :
    (create_tfrecords_run
        ⟨true, true, true, true, [DirEntry.dir "sub"], fun _ => []⟩
        "s" "d" "n_" 10).2
      = Except.ok [(os_path_join "d" "n_" ++ "0", [])] :=
  create_tfrecords_empty_source
    ⟨true, true, true, true, [DirEntry.dir "sub"], fun _ => []⟩
    "s" "d" "n_" 10 rfl rfl (by decide)

end Imagine
